import Mathlib

/-!
Shallow embedding of the StyleVerse client fragment:
`src/frontend/src/services/api.ts` (axios client, interceptors, domain
service facades) and `src/frontend/src/pages/Auth.tsx` (auth page
controller).  The browser pieces are modelled explicitly:

* `localStorage` is an association list of string entries;
* a façade operation is a pure function from the client state and a
  `Backend` oracle (the network) to a final state, the list of HTTP
  requests it issued, and an `Except` result (the settled promise);
* JavaScript values flowing through response payloads are `JsonValue`
  (JSON plus `undefined`), with JS truthiness, string coercion,
  property access (a `TypeError` on `null`/`undefined`) and
  `JSON.stringify` modelled as functions.
-/

set_option autoImplicit false

namespace StyleVerse

/-- JavaScript values as they appear in response payloads: JSON values
plus `undefined` (which destructuring and property access can produce). -/
inductive JsonValue where
  | jundefined
  | jnull
  | jbool (b : Bool)
  | jnum (n : Int)
  | jstr (s : String)
  | jarr (elems : List JsonValue)
  | jobj (fields : List (String × JsonValue))

/-- JS truthiness (`if (value)`): `undefined`, `null`, `false`, `0` and
`""` are falsy; every array or object is truthy. -/
def truthy : JsonValue → Bool
  | .jundefined => false
  | .jnull => false
  | .jbool b => b
  | .jnum n => decide (n ≠ 0)
  | .jstr s => decide (s ≠ "")
  | .jarr _ => true
  | .jobj _ => true

mutual

/-- JS string coercion `String(v)`, as applied by `localStorage.setItem`
and `URLSearchParams.append`.  Arrays coerce via `Array.prototype.join`,
where `null`/`undefined` elements become empty strings. -/
def jsStringCoerce : JsonValue → String
  | .jundefined => "undefined"
  | .jnull => "null"
  | .jbool true => "true"
  | .jbool false => "false"
  | .jnum n => toString n
  | .jstr s => s
  | .jarr xs => String.intercalate "," (coerceElems xs)
  | .jobj _ => "[object Object]"

def coerceElems : List JsonValue → List String
  | [] => []
  | .jundefined :: xs => "" :: coerceElems xs
  | .jnull :: xs => "" :: coerceElems xs
  | x :: xs => jsStringCoerce x :: coerceElems xs

end

mutual

/-- `JSON.stringify` (string escaping is not modelled; the values the
claims exercise contain no characters needing escapes).  Returns `none`
exactly when JS returns `undefined` (stringifying `undefined` itself). -/
def jsonStringify : JsonValue → Option String
  | .jundefined => none
  | .jnull => some "null"
  | .jbool true => some "true"
  | .jbool false => some "false"
  | .jnum n => some (toString n)
  | .jstr s => some ("\"" ++ s ++ "\"")
  | .jarr xs => some ("[" ++ String.intercalate "," (stringifyElems xs) ++ "]")
  | .jobj fs => some ("\x7b" ++ String.intercalate "," (stringifyFields fs) ++ "\x7d")

/-- Array elements: an element that stringifies to `undefined` is
rendered `null`. -/
def stringifyElems : List JsonValue → List String
  | [] => []
  | x :: xs => ((jsonStringify x).getD "null") :: stringifyElems xs

/-- Object fields: a field whose value stringifies to `undefined` is
omitted. -/
def stringifyFields : List (String × JsonValue) → List String
  | [] => []
  | (k, v) :: fs =>
    match jsonStringify v with
    | none => stringifyFields fs
    | some s => ("\"" ++ k ++ "\":" ++ s) :: stringifyFields fs

end

/-! ## Browser local storage -/

/-- Browser `localStorage`: a string key-value store. -/
abbrev Storage := List (String × String)

/-- `localStorage.getItem`: the stored value, or `none` for JS `null`. -/
def getItem : Storage → String → Option String
  | [], _ => none
  | (k, v) :: rest, key => if k = key then some v else getItem rest key

/-- `localStorage.removeItem`. -/
def removeItem : Storage → String → Storage
  | [], _ => []
  | (k, v) :: rest, key =>
    if k = key then removeItem rest key else (k, v) :: removeItem rest key

/-- `localStorage.setItem`: replaces any existing entry for the key. -/
def setItem (s : Storage) (key value : String) : Storage :=
  removeItem s key ++ [(key, value)]

/-- Mutable browser state touched by the client code: local storage and
`window.location.href`. -/
structure ClientState where
  storage : Storage
  locationHref : String

/-! ## HTTP model -/

/-- A request body: absent, a JSON value, or `FormData` fields
(a file is modelled by its name). -/
inductive RequestBody where
  | empty
  | json (v : JsonValue)
  | form (fields : List (String × String))

/-- An outgoing HTTP request as built by the client (an axios request
config after header merging). -/
structure HttpRequest where
  method : String
  url : String
  headers : List (String × String)
  body : RequestBody

/-- An HTTP response as axios delivers it: `status` and the parsed
JSON body `data`. -/
structure HttpResponse where
  status : Nat
  data : JsonValue

/-- An axios rejection value: `message`, and `response` present exactly
when the server answered with a non-2xx status. -/
structure AxiosError where
  message : String
  response : Option HttpResponse

/-- An error a façade promise can reject with: the axios error itself,
or a `TypeError` raised while destructuring a payload.  Both are JS
`Error` instances carrying a `message`. -/
inductive JsError where
  | axios (e : AxiosError)
  | typeError (msg : String)

/-- `error instanceof Error ? error.message : fallback` — every error the
model produces is an `Error` instance, so the message is always taken. -/
def errorMessage : JsError → String
  | .axios e => e.message
  | .typeError m => m

/-- Property lookup on an object's field list; a missing field reads as
`undefined`. -/
def lookupField (fs : List (String × JsonValue)) (k : String) : JsonValue :=
  match fs with
  | [] => .jundefined
  | (k', v) :: rest => if k' = k then v else lookupField rest k

/-- JS property access / destructuring `v.k`: a `TypeError` on `null` or
`undefined`, the field (or `undefined`) on an object, `undefined` on any
other primitive. -/
def getMember (v : JsonValue) (k : String) : Except JsError JsonValue :=
  match v with
  | .jundefined => .error (.typeError ("Cannot read properties of undefined (reading " ++ k ++ ")"))
  | .jnull => .error (.typeError ("Cannot read properties of null (reading " ++ k ++ ")"))
  | .jobj fs => .ok (lookupField fs k)
  | _ => .ok .jundefined

/-! ## Header utilities (axios header merging) -/

/-- Set a header, replacing any existing entry with the same name. -/
def setHeader (hs : List (String × String)) (k v : String) : List (String × String) :=
  hs.filter (fun p => p.1 ≠ k) ++ [(k, v)]

/-- Read a header. -/
def getHeader (hs : List (String × String)) (k : String) : Option String :=
  (hs.find? (fun p => p.1 == k)).map (fun p => p.2)

/-! ## The shared axios client (`api.ts` lines 3-38) -/

/-- `API_URL`: `import.meta.env.VITE_API_URL || "http://localhost:8000/api"`.
The environment variable is not modelled; the default is used. -/
def API_URL : String := "http://localhost:8000/api"

/-- The shared client's default headers (`axios.create`). -/
def defaultHeaders : List (String × String) := [("Content-Type", "application/json")]

/-- Build a request through the shared `api` instance: the base URL is
prefixed and per-call headers override the instance defaults. -/
def apiConfig (method path : String) (hdrs : List (String × String))
    (body : RequestBody) : HttpRequest :=
  { method := method
    url := API_URL ++ path
    headers := hdrs.foldl (fun acc p => setHeader acc p.1 p.2) defaultHeaders
    body := body }

/-- JS truthiness of `localStorage.getItem(...)`: `null` and `""` are
falsy. -/
def tokenTruthy : Option String → Bool
  | none => false
  | some s => decide (s ≠ "")

/-- Body of the request interceptor's fulfilled handler: read the
persisted token and, if truthy, set the `Authorization` header to
`Bearer <token>`; otherwise return the config unchanged. -/
def attachToken (storage : Storage) (config : HttpRequest) : HttpRequest :=
  match getItem storage "token" with
  | some token =>
    if token ≠ "" then
      { config with headers := setHeader config.headers "Authorization" ("Bearer " ++ token) }
    else config
  | none => config

/-- The request interceptor (`api.interceptors.request.use`).  The
fulfilled handler cannot throw, so the result is always `ok`; the
rejected handler just re-rejects and is not reachable here. -/
def requestInterceptor (storage : Storage) (config : HttpRequest) :
    Except AxiosError HttpRequest :=
  Except.ok (attachToken storage config)

/-- The response interceptor's rejected handler
(`api.interceptors.response.use`, error branch): on a response with
status exactly 401, remove the `token` and `user` entries and set
`window.location.href` to `/auth`; in every case re-reject with the
original error. -/
def responseInterceptorRejected (st : ClientState) (error : AxiosError) :
    ClientState × Except AxiosError HttpResponse :=
  let st1 :=
    match error.response with
    | some r =>
      if r.status = 401 then
        { storage := removeItem (removeItem st.storage "token") "user"
          locationHref := "/auth" }
      else st
    | none => st
  (st1, Except.error error)

/-- The network, as an oracle: what the backend answers for a given
request. -/
abbrev Backend := HttpRequest → Except AxiosError HttpResponse

/-- One round trip through the shared client: request interceptor, the
network, then (on success) the pass-through response handler or (on
failure) the rejected handler.  Also returns the list of requests that
actually went out on the wire. -/
def apiRequest (st : ClientState) (req : HttpRequest) (backend : Backend) :
    ClientState × List HttpRequest × Except AxiosError HttpResponse :=
  match requestInterceptor st.storage req with
  | .error e => (st, [], .error e)
  | .ok cfg =>
    match backend cfg with
    | .ok resp => (st, [cfg], .ok resp)
    | .error e =>
      let (st1, r) := responseInterceptorRejected st e
      (st1, [cfg], r)

/-- The outcome of a façade operation: final browser state, requests
issued, and the settled promise. -/
abbrev OpResult (α : Type) := ClientState × List HttpRequest × Except JsError α

/-- The common façade shape `const response = await api.X(...); return
response.data`: errors propagate unchanged. -/
def passthrough (st : ClientState) (req : HttpRequest) (backend : Backend) :
    OpResult JsonValue :=
  match apiRequest st req backend with
  | (st1, reqs, .ok resp) => (st1, reqs, .ok resp.data)
  | (st1, reqs, .error e) => (st1, reqs, .error (.axios e))

/-! ## `authService` (`api.ts` lines 41-78) -/

/-- The request `authService.login` posts. -/
def loginRequest (email password : String) : HttpRequest :=
  apiConfig "POST" "/auth/login" []
    (.json (.jobj [("email", .jstr email), ("password", .jstr password)]))

/-- `authService.login`: POST `/auth/login`, destructure
`{ token, userData }` from `response.data.data`, store the token under
`token` and `JSON.stringify(userData)` under `user`, return `userData`.
A rejected call or a `TypeError` while destructuring propagates. -/
def login (st : ClientState) (email password : String) (backend : Backend) :
    OpResult JsonValue :=
  match apiRequest st (loginRequest email password) backend with
  | (st1, reqs, .error e) => (st1, reqs, .error (.axios e))
  | (st1, reqs, .ok resp) =>
    match getMember resp.data "data" with
    | .error e => (st1, reqs, .error e)
    | .ok dd =>
      match getMember dd "token", getMember dd "userData" with
      | .error e, _ => (st1, reqs, .error e)
      | .ok _, .error e => (st1, reqs, .error e)
      | .ok token, .ok userData =>
        let s1 := setItem st1.storage "token" (jsStringCoerce token)
        let s2 := setItem s1 "user" ((jsonStringify userData).getD "undefined")
        ({ st1 with storage := s2 }, reqs, .ok userData)

/-- The request `authService.register` posts. -/
def registerRequest (name email password role : String) : HttpRequest :=
  apiConfig "POST" "/auth/register" []
    (.json (.jobj [("name", .jstr name), ("email", .jstr email),
                   ("password", .jstr password), ("role", .jstr role)]))

/-- `authService.register`: POST `/auth/register`, destructure
`{ token, user }` from `response.data` (not `response.data.data`), store
both entries, return `user`. -/
def register (st : ClientState) (name email password role : String)
    (backend : Backend) : OpResult JsonValue :=
  match apiRequest st (registerRequest name email password role) backend with
  | (st1, reqs, .error e) => (st1, reqs, .error (.axios e))
  | (st1, reqs, .ok resp) =>
    match getMember resp.data "token", getMember resp.data "user" with
    | .error e, _ => (st1, reqs, .error e)
    | .ok _, .error e => (st1, reqs, .error e)
    | .ok token, .ok user =>
      let s1 := setItem st1.storage "token" (jsStringCoerce token)
      let s2 := setItem s1 "user" ((jsonStringify user).getD "undefined")
      ({ st1 with storage := s2 }, reqs, .ok user)

/-- `authService.logout`: remove both entries, resolve `true`. -/
def logout (st : ClientState) : ClientState × Bool :=
  ({ st with storage := removeItem (removeItem st.storage "token") "user" }, true)

/-- `authService.getCurrentUser`: resolve `null` without a network call
when the stored token is falsy; otherwise GET `/auth/me`, and on any
failure catch it, remove both entries and resolve `null`. -/
def getCurrentUser (st : ClientState) (backend : Backend) : OpResult JsonValue :=
  if tokenTruthy (getItem st.storage "token") = false then
    (st, [], .ok .jnull)
  else
    match apiRequest st (apiConfig "GET" "/auth/me" [] .empty) backend with
    | (st1, reqs, .ok resp) => (st1, reqs, .ok resp.data)
    | (st1, reqs, .error _) =>
      ({ st1 with storage := removeItem (removeItem st1.storage "token") "user" },
       reqs, .ok .jnull)

/-! ## `userService` (`api.ts` lines 81-101) -/

def getUsers (st : ClientState) (backend : Backend) : OpResult JsonValue :=
  passthrough st (apiConfig "GET" "/users" [] .empty) backend

def getUserById (st : ClientState) (userId : Int) (backend : Backend) : OpResult JsonValue :=
  passthrough st (apiConfig "GET" ("/users?userId=" ++ toString userId) [] .empty) backend

def updateUser (st : ClientState) (userId : Int) (userData : JsonValue)
    (backend : Backend) : OpResult JsonValue :=
  passthrough st (apiConfig "PUT" ("/users/" ++ toString userId) [] (.json userData)) backend

def deleteUser (st : ClientState) (userId : Int) (backend : Backend) : OpResult JsonValue :=
  passthrough st (apiConfig "DELETE" ("/users/" ++ toString userId) [] .empty) backend

/-! ## Query building (`requestService.getRequests`, `proposalService.getProposals`) -/

/-- `Object.entries(filters).forEach(([key, value]) => { if (value)
queryParams.append(key, value as string) })`: keep the truthy entries,
in order, coercing values to strings. -/
def buildQuery (filters : List (String × JsonValue)) : List (String × String) :=
  filters.filterMap (fun p => if truthy p.2 then some (p.1, jsStringCoerce p.2) else none)

/-- `URLSearchParams.toString` as interpolated into the URL
(percent-encoding, a transport concern, is not modelled). -/
def renderQuery (q : List (String × String)) : String :=
  String.intercalate "&" (q.map (fun p => p.1 ++ "=" ++ p.2))

/-! ## `requestService` (`api.ts` lines 104-160) -/

def getRequests (st : ClientState) (filters : List (String × JsonValue))
    (backend : Backend) : OpResult JsonValue :=
  passthrough st
    (apiConfig "GET" ("/customization-requests?" ++ renderQuery (buildQuery filters)) [] .empty)
    backend

def getRequestById (st : ClientState) (requestId : String) (backend : Backend) :
    OpResult JsonValue :=
  passthrough st (apiConfig "GET" ("/customization-requests/" ++ requestId) [] .empty) backend

/-- The payload handed to `requestService.createRequest`: either a
`FormData` instance or plain JSON. -/
inductive RequestPayload where
  | formData (fields : List (String × String))
  | json (v : JsonValue)

/-- `requestService.createRequest`.  A `FormData` payload goes through a
raw `axios.post` that bypasses the shared client and its interceptors:
the headers hold only `Authorization` (when the stored token is truthy)
and deliberately no `Content-Type`, which the transport sets together
with the multipart boundary; the `catch` logs and rethrows the same
error.  Any other payload goes through the shared client as JSON. -/
def createRequest (st : ClientState) (requestData : RequestPayload)
    (backend : Backend) : OpResult JsonValue :=
  match requestData with
  | .formData fields =>
    let token := getItem st.storage "token"
    let hdrs : List (String × String) :=
      match token with
      | some t => if t ≠ "" then [("Authorization", "Bearer " ++ t)] else []
      | none => []
    let req : HttpRequest :=
      { method := "POST", url := API_URL ++ "/customization-requests"
        headers := hdrs, body := .form fields }
    match backend req with
    | .ok resp => (st, [req], .ok resp.data)
    | .error e => (st, [req], .error (.axios e))
  | .json v =>
    passthrough st (apiConfig "POST" "/customization-requests" [] (.json v)) backend

def updateRequest (st : ClientState) (requestId : String) (requestData : JsonValue)
    (backend : Backend) : OpResult JsonValue :=
  passthrough st
    (apiConfig "PUT" ("/customization-requests/" ++ requestId) [] (.json requestData)) backend

def deleteRequest (st : ClientState) (requestId : Int) (backend : Backend) :
    OpResult JsonValue :=
  passthrough st
    (apiConfig "DELETE" ("/customization-requests/" ++ toString requestId) [] .empty) backend

/-! ## `requestImageService` (`api.ts` lines 162-193) -/

def getImagesByRequestId (st : ClientState) (requestId : String) (backend : Backend) :
    OpResult JsonValue :=
  passthrough st
    (apiConfig "GET" ("/customization-request-images/" ++ requestId) [] .empty) backend

def addImage (st : ClientState) (data : JsonValue) (backend : Backend) : OpResult JsonValue :=
  passthrough st (apiConfig "POST" "/customization-request-images" [] (.json data)) backend

/-- `requestImageService.uploadImage`: builds a `FormData` with
`request_id` and `image`, and posts it through the shared client with a
per-call `Content-Type: multipart/form-data` header (no boundary — the
transport supplies it), overriding the JSON default. -/
def uploadImage (st : ClientState) (requestId imageFile : String) (backend : Backend) :
    OpResult JsonValue :=
  passthrough st
    (apiConfig "POST" "/customization-request-images/upload"
      [("Content-Type", "multipart/form-data")]
      (.form [("request_id", requestId), ("image", imageFile)]))
    backend

def deleteImage (st : ClientState) (imageId : String) (backend : Backend) :
    OpResult JsonValue :=
  passthrough st
    (apiConfig "DELETE" ("/customization-request-images/" ++ imageId) [] .empty) backend

/-! ## `proposalService` (`api.ts` lines 197-217) -/

def getProposals (st : ClientState) (filters : List (String × JsonValue))
    (backend : Backend) : OpResult JsonValue :=
  passthrough st
    (apiConfig "GET" ("/designer-proposals?" ++ renderQuery (buildQuery filters)) [] .empty)
    backend

def createProposal (st : ClientState) (proposalData : JsonValue) (backend : Backend) :
    OpResult JsonValue :=
  passthrough st (apiConfig "POST" "/designer-proposals" [] (.json proposalData)) backend

def updateProposal (st : ClientState) (proposalId : String) (proposalData : JsonValue)
    (backend : Backend) : OpResult JsonValue :=
  passthrough st
    (apiConfig "PUT" ("/designer-proposals/" ++ proposalId) [] (.json proposalData)) backend

/-! ## `chatService` (`api.ts` lines 220-230) -/

def getMessages (st : ClientState) (senderId receiverId : Int) (backend : Backend) :
    OpResult JsonValue :=
  passthrough st
    (apiConfig "GET"
      ("/chat?senderId=" ++ toString senderId ++ "&receiverId=" ++ toString receiverId)
      [] .empty)
    backend

def sendMessage (st : ClientState) (messageData : JsonValue) (backend : Backend) :
    OpResult JsonValue :=
  passthrough st (apiConfig "POST" "/chat" [] (.json messageData)) backend

/-! ## The auth page controller (`Auth.tsx`) -/

/-- A call to `toast(...)`: title, description and whether the
`destructive` variant was used. -/
structure Toast where
  title : String
  description : String
  destructive : Bool

/-- Observable outcome of running an auth page handler: final browser
state, the component's `user` state, and the traces of `setLoading`
calls, toasts and navigations, in order. -/
structure PageRun where
  client : ClientState
  user : Option JsonValue
  loadingSets : List Bool
  toasts : List Toast
  navigations : List String

/-- `handleLogin` (`Auth.tsx` lines 14-47): `setLoading(true)`, then
`authService.login`; on success store the user, toast success and
navigate to `/`; on failure toast the error message.  No branch resets
the loading flag. -/
def handleLogin (st : ClientState) (email password : String) (backend : Backend) :
    PageRun :=
  match login st email password backend with
  | (st1, _, .ok userData) =>
    { client := st1
      user := some userData
      loadingSets := [true]
      toasts := [⟨"Login successful", "Welcome back to StyleVerse.", false⟩]
      navigations := ["/"] }
  | (st1, _, .error e) =>
    { client := st1
      user := none
      loadingSets := [true]
      toasts := [⟨"Login failed", errorMessage e, true⟩]
      navigations := [] }

/-- A settled `fetch` response: `ok`, and the value `response.json()`
resolves to. -/
structure FetchResponse where
  ok : Bool
  body : JsonValue

/-- `handleRegister` (`Auth.tsx` lines 49-78): `setLoading(true)`, then a
raw `fetch` to `/auth/register` (NOT `authService.register` — local
storage is never written).  On a non-ok response, throw
`new Error(errorData.message || "Registration failed")`; the `catch`
toasts the failure; the `finally` always runs `setLoading(false)`.  No
navigation on success. -/
def handleRegister (st : ClientState) (fetchResult : Except JsError FetchResponse) :
    PageRun :=
  match fetchResult with
  | .error e =>
    { client := st, user := none
      loadingSets := [true, false]
      toasts := [⟨"Registration failed", errorMessage e, true⟩]
      navigations := [] }
  | .ok resp =>
    if resp.ok then
      { client := st, user := none
        loadingSets := [true, false]
        toasts := [⟨"Registration successful", "Welcome to StyleVerse.", false⟩]
        navigations := [] }
    else
      match getMember resp.body "message" with
      | .error te =>
        { client := st, user := none
          loadingSets := [true, false]
          toasts := [⟨"Registration failed", errorMessage te, true⟩]
          navigations := [] }
      | .ok v =>
        { client := st, user := none
          loadingSets := [true, false]
          toasts := [⟨"Registration failed",
                      if truthy v then jsStringCoerce v else "Registration failed", true⟩]
          navigations := [] }

/-- Whether the pattern occurs at the front of the list. -/
def matchesFront : List Char → List Char → Bool
  | _, [] => true
  | [], _ :: _ => false
  | a :: rest, b :: pat => decide (a = b) && matchesFront rest pat

/-- Whether the pattern occurs anywhere in the list. -/
def hasSub : List Char → List Char → Bool
  | [], pat => matchesFront [] pat
  | a :: rest, pat => matchesFront (a :: rest) pat || hasSub rest pat

/-- Whether a content-type value carries an explicit multipart boundary
parameter (the code never writes one; the transport adds it). -/
def mentionsBoundary (v : String) : Bool := hasSub v.data "boundary".data

/-- A backend that rejects every request with a plain network error. -/
def failingBackend : Backend := fun _ => Except.error ⟨"Network Error", none⟩

/-- A backend that accepts every request with an empty (null) body. -/
def okNullBackend : Backend := fun _ => Except.ok ⟨200, .jnull⟩

/-- A backend answering the spec's concrete login scenario:
`data = ⦃data: ⦃token:"t1", userData: ⦃id:1⦄⦄⦄`. -/
def loginScenarioBackend : Backend := fun _ =>
  Except.ok ⟨200, .jobj [("data", .jobj [("token", .jstr "t1"),
                                         ("userData", .jobj [("id", .jnum 1)])])]⟩

/-- A backend answering a register call with
`data = ⦃token:"t2", user: ⦃id:2⦄⦄`. -/
def registerScenarioBackend : Backend := fun _ =>
  Except.ok ⟨200, .jobj [("token", .jstr "t2"), ("user", .jobj [("id", .jnum 2)])]⟩

/-- A backend rejecting every request with HTTP status 401. -/
def error401Backend : Backend := fun _ =>
  Except.error ⟨"Request failed with status code 401", some ⟨401, .jnull⟩⟩

/-! ## Helper lemmas: the storage model -/

theorem getItem_removeItem_self (s : Storage) (k : String) :
    getItem (removeItem s k) k = none := by
  induction s with
  | nil => rfl
  | cons p rest ih =>
    obtain ⟨a, b⟩ := p
    by_cases h : a = k
    · simp [removeItem, h, ih]
    · simp [removeItem, getItem, h, ih]

theorem getItem_removeItem_ne (s : Storage) (k k' : String) (h : k ≠ k') :
    getItem (removeItem s k') k = getItem s k := by
  induction s with
  | nil => rfl
  | cons p rest ih =>
    obtain ⟨a, b⟩ := p
    by_cases ha : a = k'
    · simp [removeItem, getItem, ha, Ne.symm h, ih]
    · by_cases hk : a = k
      · simp [removeItem, getItem, ha, hk, h]
      · simp [removeItem, getItem, ha, hk, ih]

theorem getItem_append_none (s1 s2 : Storage) (k : String)
    (h : getItem s1 k = none) : getItem (s1 ++ s2) k = getItem s2 k := by
  induction s1 with
  | nil => rfl
  | cons p rest ih =>
    obtain ⟨a, b⟩ := p
    by_cases ha : a = k
    · simp [getItem, ha] at h
    · simp [getItem, ha] at h ⊢
      exact ih h

theorem getItem_append_some (s1 s2 : Storage) (k w : String)
    (h : getItem s1 k = some w) : getItem (s1 ++ s2) k = some w := by
  induction s1 with
  | nil => simp [getItem] at h
  | cons p rest ih =>
    obtain ⟨a, b⟩ := p
    by_cases ha : a = k
    · simp [getItem, ha] at h ⊢
      exact h
    · simp [getItem, ha] at h ⊢
      exact ih h

theorem getItem_setItem_self (s : Storage) (k v : String) :
    getItem (setItem s k v) k = some v := by
  unfold setItem
  rw [getItem_append_none _ _ _ (getItem_removeItem_self s k)]
  simp [getItem]

theorem getItem_setItem_ne (s : Storage) (k k' v : String) (h : k ≠ k') :
    getItem (setItem s k' v) k = getItem s k := by
  unfold setItem
  cases hg : getItem (removeItem s k') k with
  | none =>
    rw [getItem_append_none _ _ _ hg]
    rw [getItem_removeItem_ne s k k' h] at hg
    simp [getItem, Ne.symm h, hg]
  | some w =>
    rw [getItem_append_some _ _ _ _ hg, ← hg]
    exact getItem_removeItem_ne s k k' h

/-! ## Helper lemmas: the client pipeline -/

theorem getMember_jobj (fs : List (String × JsonValue)) (k : String) :
    getMember (JsonValue.jobj fs) k = Except.ok (lookupField fs k) := rfl

theorem attachToken_url (storage : Storage) (config : HttpRequest) :
    (attachToken storage config).url = config.url := by
  unfold attachToken
  cases getItem storage "token" with
  | none => rfl
  | some t => by_cases h : t = "" <;> simp [h]

theorem attachToken_of_token (storage : Storage) (config : HttpRequest) (t : String)
    (htok : getItem storage "token" = some t) (hne : t ≠ "") :
    attachToken storage config =
      { config with headers := setHeader config.headers "Authorization" ("Bearer " ++ t) } := by
  simp [attachToken, htok, hne]

theorem passthrough_propagates_error (st : ClientState) (req : HttpRequest)
    (backend : Backend) (e : AxiosError) (hb : ∀ r, backend r = Except.error e) :
    (passthrough st req backend).2.2 = Except.error (JsError.axios e) := by
  simp [passthrough, apiRequest, requestInterceptor, hb, responseInterceptorRejected]

theorem passthrough_issues (st : ClientState) (req : HttpRequest) (backend : Backend) :
    (passthrough st req backend).2.1 = [attachToken st.storage req] := by
  unfold passthrough apiRequest requestInterceptor
  cases hbk : backend (attachToken st.storage req) <;>
    simp [responseInterceptorRejected, hbk]

/-! ## Claim theorems -/

/-- C1: for every response rejected with HTTP status exactly 401, on any
operation made through the shared client, the response interceptor
removes both the `token` and `user` local-storage entries and sets
`window.location.href` to `/auth`, and the original rejection still
propagates to the caller after these side effects. -/
theorem c1_401_clears_session_and_redirects
    (st : ClientState) (req : HttpRequest) (backend : Backend)
    (e : AxiosError) (r : HttpResponse)
    (hresp : e.response = some r) (hstatus : r.status = 401)
    (hb : ∀ cfg, backend cfg = Except.error e) :
    getItem (apiRequest st req backend).1.storage "token" = none ∧
    getItem (apiRequest st req backend).1.storage "user" = none ∧
    (apiRequest st req backend).1.locationHref = "/auth" ∧
    (apiRequest st req backend).2.2 = Except.error e := by
  have hst : (apiRequest st req backend).1.storage =
        removeItem (removeItem st.storage "token") "user" ∧
      (apiRequest st req backend).1.locationHref = "/auth" ∧
      (apiRequest st req backend).2.2 = Except.error e := by
    simp [apiRequest, requestInterceptor, hb, responseInterceptorRejected, hresp, hstatus]
  obtain ⟨hs, hh, hr⟩ := hst
  refine ⟨?_, ?_, hh, hr⟩
  · rw [hs, getItem_removeItem_ne _ _ _ (by decide), getItem_removeItem_self]
  · rw [hs, getItem_removeItem_self]

/-- C1 witness: a concrete GET through the client answered 401 ends with
both entries cleared, the location on `/auth`, and the same rejection. -/
theorem c1_witness :
    getItem (apiRequest ⟨[("token", "t0"), ("user", "u0")], "/home"⟩
      ⟨"GET", "/users", [], .empty⟩
      error401Backend).1.storage
      "token" = none ∧
    getItem (apiRequest ⟨[("token", "t0"), ("user", "u0")], "/home"⟩
      ⟨"GET", "/users", [], .empty⟩
      error401Backend).1.storage
      "user" = none ∧
    (apiRequest ⟨[("token", "t0"), ("user", "u0")], "/home"⟩
      ⟨"GET", "/users", [], .empty⟩
      error401Backend).1.locationHref
      = "/auth" ∧
    (apiRequest ⟨[("token", "t0"), ("user", "u0")], "/home"⟩
      ⟨"GET", "/users", [], .empty⟩
      error401Backend).2.2
      = Except.error ⟨"Request failed with status code 401", some ⟨401, .jnull⟩⟩ :=
  c1_401_clears_session_and_redirects
    ⟨[("token", "t0"), ("user", "u0")], "/home"⟩
    ⟨"GET", "/users", [], .empty⟩
    error401Backend
    ⟨"Request failed with status code 401", some ⟨401, .jnull⟩⟩
    ⟨401, .jnull⟩ rfl rfl (fun _ => rfl)

/-- C3: for every outgoing request through the shared client, if a
(truthy) token is stored the interceptor sets the `Authorization` header
to `Bearer <token>`; with no token (absent or empty, both falsy in the
source's `if (token)`) the request proceeds unmodified; and the
interceptor never rejects the request. -/
theorem c3_request_interceptor_bearer
    (storage : Storage) (config : HttpRequest) :
    (∀ t, getItem storage "token" = some t → t ≠ "" →
      requestInterceptor storage config =
        Except.ok { config with
          headers := setHeader config.headers "Authorization" ("Bearer " ++ t) }) ∧
    (tokenTruthy (getItem storage "token") = false →
      requestInterceptor storage config = Except.ok config) ∧
    (∃ cfg, requestInterceptor storage config = Except.ok cfg) := by
  refine ⟨?_, ?_, ⟨attachToken storage config, rfl⟩⟩
  · intro t ht hne
    simp [requestInterceptor, attachToken, ht, hne]
  · intro hfalse
    cases h : getItem storage "token" with
    | none => simp [requestInterceptor, attachToken, h]
    | some t =>
      rw [h] at hfalse
      simp [tokenTruthy] at hfalse
      simp [requestInterceptor, attachToken, h, hfalse]

/-- C3 witness: with token `abc` stored the header is attached; with
empty storage the request is unchanged. -/
theorem c3_witness :
    requestInterceptor [("token", "abc")] ⟨"GET", "/users", [], .empty⟩ =
      Except.ok ⟨"GET", "/users", [("Authorization", "Bearer abc")], .empty⟩ ∧
    requestInterceptor [] ⟨"GET", "/users", [], .empty⟩ =
      Except.ok ⟨"GET", "/users", [], .empty⟩ :=
  ⟨(c3_request_interceptor_bearer [("token", "abc")] ⟨"GET", "/users", [], .empty⟩).1
      "abc" rfl (by decide),
   (c3_request_interceptor_bearer [] ⟨"GET", "/users", [], .empty⟩).2.1 rfl⟩

/-- C2: `login` reads `{ token, userData }` from `response.data.data`
while `register` reads `{ token, user }` from `response.data`; each
stores the token under the `token` key and the JSON-serialized profile
under the `user` key and returns the profile. -/
theorem c2_login_register_shapes
    (st st2 : ClientState) (email password name role : String)
    (backend backend2 : Backend) (resp resp2 : HttpResponse)
    (dd fs : List (String × JsonValue)) (t t2 uStr u2Str : String) (u u2 : JsonValue)
    (hb : ∀ cfg, backend cfg = Except.ok resp)
    (hdd : getMember resp.data "data" = Except.ok (JsonValue.jobj dd))
    (htok : lookupField dd "token" = JsonValue.jstr t)
    (hud : lookupField dd "userData" = u)
    (hstr : jsonStringify u = some uStr)
    (hb2 : ∀ cfg, backend2 cfg = Except.ok resp2)
    (hdata2 : resp2.data = JsonValue.jobj fs)
    (htok2 : lookupField fs "token" = JsonValue.jstr t2)
    (hu2 : lookupField fs "user" = u2)
    (hstr2 : jsonStringify u2 = some u2Str) :
    (getItem (login st email password backend).1.storage "token" = some t ∧
     getItem (login st email password backend).1.storage "user" = some uStr ∧
     (login st email password backend).2.2 = Except.ok u) ∧
    (getItem (register st2 name email password role backend2).1.storage "token" = some t2 ∧
     getItem (register st2 name email password role backend2).1.storage "user" = some u2Str ∧
     (register st2 name email password role backend2).2.2 = Except.ok u2) := by
  have hlog : (login st email password backend).1.storage =
        setItem (setItem st.storage "token" t) "user" uStr ∧
      (login st email password backend).2.2 = Except.ok u := by
    simp [login, apiRequest, requestInterceptor, hb, hdd, getMember_jobj, htok, hud, hstr,
      jsStringCoerce]
  have hreg : (register st2 name email password role backend2).1.storage =
        setItem (setItem st2.storage "token" t2) "user" u2Str ∧
      (register st2 name email password role backend2).2.2 = Except.ok u2 := by
    simp [register, apiRequest, requestInterceptor, hb2, hdata2, getMember_jobj, htok2, hu2,
      hstr2, jsStringCoerce]
  obtain ⟨hs1, hr1⟩ := hlog
  obtain ⟨hs2, hr2⟩ := hreg
  refine ⟨⟨?_, ?_, hr1⟩, ⟨?_, ?_, hr2⟩⟩
  · rw [hs1, getItem_setItem_ne _ _ _ _ (by decide), getItem_setItem_self]
  · rw [hs1, getItem_setItem_self]
  · rw [hs2, getItem_setItem_ne _ _ _ _ (by decide), getItem_setItem_self]
  · rw [hs2, getItem_setItem_self]

/-- C2 witness: the spec's concrete scenario — `login("a@b.com","pw")`
resolving with `data = ⦃data: ⦃token:"t1", userData: ⦃id:1⦄⦄⦄` stores
`token="t1"` and `user=⦃"id":1⦄` and returns `⦃id:1⦄`; and a register
resolving with `data = ⦃token:"t2", user: ⦃id:2⦄⦄` stores both. -/
theorem c2_witness :
    (getItem (login ⟨[], ""⟩ "a@b.com" "pw"
        loginScenarioBackend).1.storage
      "token" = some "t1" ∧
     getItem (login ⟨[], ""⟩ "a@b.com" "pw"
        loginScenarioBackend).1.storage
      "user" = some "\x7b\"id\":1\x7d" ∧
     (login ⟨[], ""⟩ "a@b.com" "pw"
        loginScenarioBackend).2.2
      = Except.ok (.jobj [("id", .jnum 1)])) ∧
    (getItem (register ⟨[], ""⟩ "n" "a@b.com" "pw" "customer"
        registerScenarioBackend).1.storage
      "token" = some "t2" ∧
     getItem (register ⟨[], ""⟩ "n" "a@b.com" "pw" "customer"
        registerScenarioBackend).1.storage
      "user" = some "\x7b\"id\":2\x7d" ∧
     (register ⟨[], ""⟩ "n" "a@b.com" "pw" "customer"
        registerScenarioBackend).2.2
      = Except.ok (.jobj [("id", .jnum 2)])) :=
  c2_login_register_shapes
    ⟨[], ""⟩ ⟨[], ""⟩ "a@b.com" "pw" "n" "customer"
    loginScenarioBackend
    registerScenarioBackend
    ⟨200, .jobj [("data", .jobj [("token", .jstr "t1"),
                                 ("userData", .jobj [("id", .jnum 1)])])]⟩
    ⟨200, .jobj [("token", .jstr "t2"), ("user", .jobj [("id", .jnum 2)])]⟩
    [("token", .jstr "t1"), ("userData", .jobj [("id", .jnum 1)])]
    [("token", .jstr "t2"), ("user", .jobj [("id", .jnum 2)])]
    "t1" "t2" "\x7b\"id\":1\x7d" "\x7b\"id\":2\x7d"
    (.jobj [("id", .jnum 1)]) (.jobj [("id", .jnum 2)])
    (fun _ => rfl) rfl rfl rfl rfl (fun _ => rfl) rfl rfl rfl rfl

/-- C4: for both upload operations (`requestService.createRequest` with
a `FormData` payload and `requestImageService.uploadImage`), the JSON
content-type default is not applied (absent on the raw path, overridden
to `multipart/form-data` on the shared-client path), no boundary is
written (the transport sets it), and the bearer token is attached when a
(truthy) token is stored. -/
theorem c4_multipart_uploads (st : ClientState) (t : String)
    (fields : List (String × String)) (requestId imageFile : String)
    (backend : Backend)
    (htok : getItem st.storage "token" = some t) (hne : t ≠ "") :
    ((createRequest st (.formData fields) backend).2.1.map
      (fun r => (getHeader r.headers "Content-Type", getHeader r.headers "Authorization"))
      = [(none, some ("Bearer " ++ t))]) ∧
    ((uploadImage st requestId imageFile backend).2.1.map
      (fun r => (getHeader r.headers "Content-Type", getHeader r.headers "Authorization"))
      = [(some "multipart/form-data", some ("Bearer " ++ t))]) ∧
    mentionsBoundary "multipart/form-data" = false := by
  have hA : (createRequest st (.formData fields) backend).2.1 =
      [⟨"POST", API_URL ++ "/customization-requests",
        [("Authorization", "Bearer " ++ t)], .form fields⟩] := by
    simp only [createRequest, htok]
    rw [if_pos hne]
    split <;> rfl
  refine ⟨?_, ?_, by decide⟩
  · rw [hA]
    rfl
  · unfold uploadImage
    rw [passthrough_issues, attachToken_of_token _ _ _ htok hne]
    rfl

/-- C4 witness: with token `tok` stored, the `FormData` create-request
carries no content-type and `Bearer tok`, and the image upload carries
`multipart/form-data` (no boundary) and `Bearer tok`. -/
theorem c4_witness :
    ((createRequest ⟨[("token", "tok")], ""⟩ (.formData [("description", "x")])
        okNullBackend).2.1.map
      (fun r => (getHeader r.headers "Content-Type", getHeader r.headers "Authorization"))
      = [(none, some "Bearer tok")]) ∧
    ((uploadImage ⟨[("token", "tok")], ""⟩ "r1" "img.png"
        okNullBackend).2.1.map
      (fun r => (getHeader r.headers "Content-Type", getHeader r.headers "Authorization"))
      = [(some "multipart/form-data", some "Bearer tok")]) ∧
    mentionsBoundary "multipart/form-data" = false :=
  c4_multipart_uploads ⟨[("token", "tok")], ""⟩ "tok" [("description", "x")]
    "r1" "img.png" okNullBackend rfl (by decide)

/-- C5 counterexample: `authService.getCurrentUser` with a stored token
and a failing backend resolves `null` instead of rejecting with the
transport error — it catches the failure, so not every façade operation
propagates its error. -/
theorem c5_counterexample :
    (getCurrentUser ⟨[("token", "tk")], ""⟩ failingBackend).2.2 = Except.ok JsonValue.jnull ∧
    (getCurrentUser ⟨[("token", "tk")], ""⟩ failingBackend).2.2 ≠
      Except.error (JsError.axios ⟨"Network Error", none⟩) := by
  constructor
  · rfl
  · intro h
    exact Except.noConfusion h

/-- C5 amended: every façade operation that fails rejects with the
underlying transport error, EXCEPT `authService.getCurrentUser`, which
catches the failure and resolves `null`; `createRequest`'s `FormData`
branch catches but rethrows the same error; and the auth page
controller converts the propagated error into a notification. -/
theorem c5_amended_error_propagation
    (st : ClientState)
    (email password name role requestId proposalId imageId imageFile : String)
    (userId requestIdNum senderId receiverId : Int)
    (userData v proposalData messageData imgData : JsonValue)
    (fields : List (String × String)) (filters : List (String × JsonValue))
    (backend : Backend) (e : AxiosError)
    (hb : ∀ r, backend r = Except.error e) :
    (getCurrentUser st backend).2.2 = Except.ok JsonValue.jnull ∧
    (handleLogin st email password backend).toasts = [⟨"Login failed", e.message, true⟩] ∧
    (login st email password backend).2.2 = Except.error (JsError.axios e) ∧
    (register st name email password role backend).2.2 = Except.error (JsError.axios e) ∧
    (getUsers st backend).2.2 = Except.error (JsError.axios e) ∧
    (getUserById st userId backend).2.2 = Except.error (JsError.axios e) ∧
    (updateUser st userId userData backend).2.2 = Except.error (JsError.axios e) ∧
    (deleteUser st userId backend).2.2 = Except.error (JsError.axios e) ∧
    (getRequests st filters backend).2.2 = Except.error (JsError.axios e) ∧
    (getRequestById st requestId backend).2.2 = Except.error (JsError.axios e) ∧
    (createRequest st (.formData fields) backend).2.2 = Except.error (JsError.axios e) ∧
    (createRequest st (.json v) backend).2.2 = Except.error (JsError.axios e) ∧
    (updateRequest st requestId v backend).2.2 = Except.error (JsError.axios e) ∧
    (deleteRequest st requestIdNum backend).2.2 = Except.error (JsError.axios e) ∧
    (getImagesByRequestId st requestId backend).2.2 = Except.error (JsError.axios e) ∧
    (addImage st imgData backend).2.2 = Except.error (JsError.axios e) ∧
    (uploadImage st requestId imageFile backend).2.2 = Except.error (JsError.axios e) ∧
    (deleteImage st imageId backend).2.2 = Except.error (JsError.axios e) ∧
    (getProposals st filters backend).2.2 = Except.error (JsError.axios e) ∧
    (createProposal st proposalData backend).2.2 = Except.error (JsError.axios e) ∧
    (updateProposal st proposalId proposalData backend).2.2 = Except.error (JsError.axios e) ∧
    (getMessages st senderId receiverId backend).2.2 = Except.error (JsError.axios e) ∧
    (sendMessage st messageData backend).2.2 = Except.error (JsError.axios e) := by
  refine ⟨?_, ?_, ?_, ?_, ?_, ?_, ?_, ?_, ?_, ?_, ?_, ?_, ?_, ?_, ?_, ?_, ?_, ?_, ?_,
    ?_, ?_, ?_, ?_⟩
  · by_cases h : tokenTruthy (getItem st.storage "token") = false
    · simp [getCurrentUser, h]
    · simp [getCurrentUser, h, apiRequest, requestInterceptor, hb, responseInterceptorRejected]
  · simp [handleLogin, login, apiRequest, requestInterceptor, hb,
      responseInterceptorRejected, errorMessage]
  · simp [login, apiRequest, requestInterceptor, hb, responseInterceptorRejected]
  · simp [register, apiRequest, requestInterceptor, hb, responseInterceptorRejected]
  · exact passthrough_propagates_error _ _ _ _ hb
  · exact passthrough_propagates_error _ _ _ _ hb
  · exact passthrough_propagates_error _ _ _ _ hb
  · exact passthrough_propagates_error _ _ _ _ hb
  · exact passthrough_propagates_error _ _ _ _ hb
  · exact passthrough_propagates_error _ _ _ _ hb
  · simp [createRequest, hb]
  · exact passthrough_propagates_error _ _ _ _ hb
  · exact passthrough_propagates_error _ _ _ _ hb
  · exact passthrough_propagates_error _ _ _ _ hb
  · exact passthrough_propagates_error _ _ _ _ hb
  · exact passthrough_propagates_error _ _ _ _ hb
  · exact passthrough_propagates_error _ _ _ _ hb
  · exact passthrough_propagates_error _ _ _ _ hb
  · exact passthrough_propagates_error _ _ _ _ hb
  · exact passthrough_propagates_error _ _ _ _ hb
  · exact passthrough_propagates_error _ _ _ _ hb
  · exact passthrough_propagates_error _ _ _ _ hb
  · exact passthrough_propagates_error _ _ _ _ hb

/-- C5 amended witness: with a failing backend, `getCurrentUser` (token
stored) resolves `null` while `getUsers` rejects with the transport
error. -/
theorem c5_amended_witness :
    (getCurrentUser ⟨[("token", "tk")], ""⟩ failingBackend).2.2 = Except.ok JsonValue.jnull ∧
    (getUsers ⟨[("token", "tk")], ""⟩ failingBackend).2.2 =
      Except.error (JsError.axios ⟨"Network Error", none⟩) :=
  ⟨(c5_amended_error_propagation ⟨[("token", "tk")], ""⟩ "a@b.com" "pw" "n" "customer"
      "r1" "p1" "i1" "img.png" 0 0 0 0 .jnull .jnull .jnull .jnull .jnull [] []
      failingBackend ⟨"Network Error", none⟩ (fun _ => rfl)).1,
   (c5_amended_error_propagation ⟨[("token", "tk")], ""⟩ "a@b.com" "pw" "n" "customer"
      "r1" "p1" "i1" "img.png" 0 0 0 0 .jnull .jnull .jnull .jnull .jnull [] []
      failingBackend ⟨"Network Error", none⟩ (fun _ => rfl)).2.2.2.2.1⟩

/-- C6: the auth page's login handler sets the loading flag to true at
the start and never resets it on either path, whereas the register
handler resets it in a guaranteed-cleanup block regardless of outcome
and does not navigate on success. -/
theorem c6_loading_flag_traces (st st2 : ClientState) (email password : String)
    (backend : Backend) (fr : Except JsError FetchResponse) :
    (handleLogin st email password backend).loadingSets = [true] ∧
    (handleRegister st2 fr).loadingSets = [true, false] ∧
    (handleRegister st2 fr).navigations = [] := by
  refine ⟨?_, ?_, ?_⟩
  · rcases hl : login st email password backend with ⟨st1, reqs, r⟩
    cases r <;> simp [handleLogin, hl]
  · cases fr with
    | error e => simp [handleRegister]
    | ok resp =>
      by_cases h : resp.ok = true
      · simp [handleRegister, h]
      · cases hm : getMember resp.body "message" <;> simp [handleRegister, h, hm]
  · cases fr with
    | error e => simp [handleRegister]
    | ok resp =>
      by_cases h : resp.ok = true
      · simp [handleRegister, h]
      · cases hm : getMember resp.body "message" <;> simp [handleRegister, h, hm]

/-- C7: for every filter object passed to `requestService.getRequests`
or `proposalService.getProposals`, falsy-valued entries are absent from
the resulting query string and truthy entries appear (coerced to
strings) verbatim, and both operations put exactly that query string on
the issued request. -/
theorem c7_falsy_filters_omitted
    (filters : List (String × JsonValue)) (k : String) (v : JsonValue)
    (st : ClientState) (backend : Backend) :
    ((k, v) ∈ filters → truthy v = true → (k, jsStringCoerce v) ∈ buildQuery filters) ∧
    ((∀ v', (k, v') ∈ filters → truthy v' = false) →
      k ∉ (buildQuery filters).map Prod.fst) ∧
    ((getRequests st filters backend).2.1.map (fun r => r.url) =
      [API_URL ++ "/customization-requests?" ++ renderQuery (buildQuery filters)]) ∧
    ((getProposals st filters backend).2.1.map (fun r => r.url) =
      [API_URL ++ "/designer-proposals?" ++ renderQuery (buildQuery filters)]) := by
  refine ⟨?_, ?_, ?_, ?_⟩
  · intro hmem htr
    unfold buildQuery
    exact List.mem_filterMap.mpr ⟨(k, v), hmem, by simp [htr]⟩
  · intro hall hk
    rw [List.mem_map] at hk
    obtain ⟨p, hp, hfst⟩ := hk
    unfold buildQuery at hp
    rw [List.mem_filterMap] at hp
    obtain ⟨b, hb, hfb⟩ := hp
    obtain ⟨b1, b2⟩ := b
    cases htr : truthy b2 with
    | false => simp [htr] at hfb
    | true =>
      simp [htr] at hfb
      have hb1 : b1 = k := by
        rw [← hfb] at hfst
        exact hfst
      have hmem2 : (k, b2) ∈ filters := hb1 ▸ hb
      have := hall b2 hmem2
      rw [this] at htr
      exact Bool.noConfusion htr
  · unfold getRequests
    rw [passthrough_issues]
    simp [attachToken_url, apiConfig, String.append_assoc]
  · unfold getProposals
    rw [passthrough_issues]
    simp [attachToken_url, apiConfig, String.append_assoc]

/-- C7 witness: for the filter set `⦃status:"open", empty:""⦄`, the
truthy entry appears, the falsy entry is absent, and the issued
get-requests URL is exactly `...?status=open`. -/
theorem c7_witness :
    ("status", "open") ∈ buildQuery [("status", .jstr "open"), ("empty", .jstr "")] ∧
    "empty" ∉ (buildQuery [("status", .jstr "open"), ("empty", .jstr "")]).map Prod.fst ∧
    ((getRequests ⟨[], ""⟩ [("status", .jstr "open"), ("empty", .jstr "")]
        okNullBackend).2.1.map HttpRequest.url =
      ["http://localhost:8000/api/customization-requests?status=open"]) :=
  ⟨(c7_falsy_filters_omitted [("status", .jstr "open"), ("empty", .jstr "")] "status"
      (.jstr "open") ⟨[], ""⟩ okNullBackend).1 (List.mem_cons_self _ _) rfl,
   (c7_falsy_filters_omitted [("status", .jstr "open"), ("empty", .jstr "")] "empty"
      (.jstr "") ⟨[], ""⟩ okNullBackend).2.1
     (by
       intro v' h
       simp at h
       rw [h]
       rfl),
   (c7_falsy_filters_omitted [("status", .jstr "open"), ("empty", .jstr "")] "empty"
      (.jstr "") ⟨[], ""⟩ okNullBackend).2.2.1⟩

/-- C8 counterexample: a registration submitted through the auth page
that the backend accepts (an `ok` fetch response, success toast shown)
leaves local storage empty — no `token` or `user` entry is persisted, so
no session is created. -/
theorem c8_counterexample :
    (handleRegister ⟨[], ""⟩ (Except.ok ⟨true, .jobj []⟩)).client.storage = [] ∧
    getItem (handleRegister ⟨[], ""⟩ (Except.ok ⟨true, .jobj []⟩)).client.storage
      "token" = none ∧
    getItem (handleRegister ⟨[], ""⟩ (Except.ok ⟨true, .jobj []⟩)).client.storage
      "user" = none ∧
    (handleRegister ⟨[], ""⟩ (Except.ok ⟨true, .jobj []⟩)).toasts =
      [⟨"Registration successful", "Welcome to StyleVerse.", false⟩] :=
  ⟨rfl, rfl, rfl, rfl⟩

/-- C8 amended: a registration submitted through the auth page never
touches local storage (the handler calls the backend directly via
`fetch` and only shows notifications); only `authService.register` —
which the page does not invoke — persists the `token` and `user` entries
on success. -/
theorem c8_amended_page_register_no_session
    (st st2 : ClientState) (fr : Except JsError FetchResponse)
    (name email password role : String) (backend : Backend)
    (resp : HttpResponse) (fs : List (String × JsonValue))
    (t uStr : String) (u : JsonValue)
    (hb : ∀ cfg, backend cfg = Except.ok resp)
    (hdata : resp.data = JsonValue.jobj fs)
    (htok : lookupField fs "token" = JsonValue.jstr t)
    (hu : lookupField fs "user" = u)
    (hstr : jsonStringify u = some uStr) :
    (handleRegister st fr).client = st ∧
    getItem (register st2 name email password role backend).1.storage "token" = some t ∧
    getItem (register st2 name email password role backend).1.storage "user" = some uStr := by
  have hpage : (handleRegister st fr).client = st := by
    cases fr with
    | error e => rfl
    | ok resp2 =>
      by_cases h : resp2.ok = true
      · simp [handleRegister, h]
      · cases hm : getMember resp2.body "message" <;> simp [handleRegister, h, hm]
  have hreg : (register st2 name email password role backend).1.storage =
      setItem (setItem st2.storage "token" t) "user" uStr := by
    simp [register, apiRequest, requestInterceptor, hb, hdata, getMember_jobj, htok, hu,
      hstr, jsStringCoerce]
  refine ⟨hpage, ?_, ?_⟩
  · rw [hreg, getItem_setItem_ne _ _ _ _ (by decide), getItem_setItem_self]
  · rw [hreg, getItem_setItem_self]

/-- C8 amended witness: an accepted page registration leaves the state
untouched, while a direct `authService.register` stores both entries. -/
theorem c8_amended_witness :
    (handleRegister ⟨[], ""⟩ (Except.ok ⟨true, .jobj []⟩)).client = ⟨[], ""⟩ ∧
    getItem (register ⟨[], ""⟩ "n" "a@b.com" "pw" "customer"
        registerScenarioBackend).1.storage "token" = some "t2" ∧
    getItem (register ⟨[], ""⟩ "n" "a@b.com" "pw" "customer"
        registerScenarioBackend).1.storage "user" = some "\x7b\"id\":2\x7d" :=
  c8_amended_page_register_no_session ⟨[], ""⟩ ⟨[], ""⟩ (Except.ok ⟨true, .jobj []⟩)
    "n" "a@b.com" "pw" "customer" registerScenarioBackend
    ⟨200, .jobj [("token", .jstr "t2"), ("user", .jobj [("id", .jnum 2)])]⟩
    [("token", .jstr "t2"), ("user", .jobj [("id", .jnum 2)])]
    "t2" "\x7b\"id\":2\x7d" (.jobj [("id", .jnum 2)])
    (fun _ => rfl) rfl rfl rfl rfl

/-- C9: if the POST to `/auth/login` rejects, `authService.login`
rejects with that error and performs no storage writes of its own — the
final state is exactly what the shared response interceptor left (and
with no 401 response, storage is unchanged). -/
theorem c9_login_failure_no_writes
    (st : ClientState) (email password : String) (backend : Backend) (e : AxiosError)
    (hb : ∀ r, backend r = Except.error e) :
    (login st email password backend).2.2 = Except.error (JsError.axios e) ∧
    (login st email password backend).1 = (responseInterceptorRejected st e).1 ∧
    (e.response = none → (login st email password backend).1.storage = st.storage) ∧
    (∀ r, e.response = some r → r.status ≠ 401 →
      (login st email password backend).1.storage = st.storage) := by
  refine ⟨?_, ?_, ?_, ?_⟩
  · simp [login, apiRequest, requestInterceptor, hb, responseInterceptorRejected]
  · simp [login, apiRequest, requestInterceptor, hb, responseInterceptorRejected]
  · intro h
    simp [login, apiRequest, requestInterceptor, hb, responseInterceptorRejected, h]
  · intro r hr hs
    simp [login, apiRequest, requestInterceptor, hb, responseInterceptorRejected, hr, hs]

/-- C9 witness: a login against a network-failing backend rejects with
the transport error and leaves the prior storage intact. -/
theorem c9_witness :
    (login ⟨[("k", "v")], ""⟩ "a@b.com" "pw" failingBackend).2.2 =
      Except.error (JsError.axios ⟨"Network Error", none⟩) ∧
    (login ⟨[("k", "v")], ""⟩ "a@b.com" "pw" failingBackend).1.storage = [("k", "v")] :=
  ⟨(c9_login_failure_no_writes ⟨[("k", "v")], ""⟩ "a@b.com" "pw" failingBackend
      ⟨"Network Error", none⟩ (fun _ => rfl)).1,
   (c9_login_failure_no_writes ⟨[("k", "v")], ""⟩ "a@b.com" "pw" failingBackend
      ⟨"Network Error", none⟩ (fun _ => rfl)).2.2.1 rfl⟩

/-- C10: `authService.getCurrentUser` resolves `null` with no network
request when the stored token is falsy; and when the GET `/auth/me` call
fails for any reason, it removes both storage entries and resolves
`null` instead of rejecting. -/
theorem c10_getCurrentUser_null_paths
    (st : ClientState) (backend : Backend) (e : AxiosError) (tk : String) :
    (tokenTruthy (getItem st.storage "token") = false →
      getCurrentUser st backend = (st, [], Except.ok JsonValue.jnull)) ∧
    (getItem st.storage "token" = some tk → tk ≠ "" →
      (∀ r, backend r = Except.error e) →
      getItem (getCurrentUser st backend).1.storage "token" = none ∧
      getItem (getCurrentUser st backend).1.storage "user" = none ∧
      (getCurrentUser st backend).2.2 = Except.ok JsonValue.jnull) := by
  constructor
  · intro h
    simp [getCurrentUser, h]
  · intro htok hne hb
    have hcond : tokenTruthy (getItem st.storage "token") = true := by
      rw [htok]
      simp [tokenTruthy, hne]
    have hpair : (getCurrentUser st backend).1.storage =
        removeItem (removeItem (responseInterceptorRejected st e).1.storage "token") "user" ∧
        (getCurrentUser st backend).2.2 = Except.ok JsonValue.jnull := by
      simp [getCurrentUser, hcond, apiRequest, requestInterceptor, hb,
        responseInterceptorRejected]
    obtain ⟨hs, hr⟩ := hpair
    refine ⟨?_, ?_, hr⟩
    · rw [hs, getItem_removeItem_ne _ _ _ (by decide), getItem_removeItem_self]
    · rw [hs, getItem_removeItem_self]

/-- C10 witness: with no stored token, `getCurrentUser` resolves `null`
issuing no request; with a stored token and a failing backend, it clears
both entries and still resolves `null`. -/
theorem c10_witness :
    getCurrentUser ⟨[], ""⟩ okNullBackend = (⟨[], ""⟩, [], Except.ok JsonValue.jnull) ∧
    (getItem (getCurrentUser ⟨[("token", "tk"), ("user", "u0")], ""⟩
        failingBackend).1.storage "token" = none ∧
     getItem (getCurrentUser ⟨[("token", "tk"), ("user", "u0")], ""⟩
        failingBackend).1.storage "user" = none ∧
     (getCurrentUser ⟨[("token", "tk"), ("user", "u0")], ""⟩ failingBackend).2.2 =
       Except.ok JsonValue.jnull) :=
  ⟨(c10_getCurrentUser_null_paths ⟨[], ""⟩ okNullBackend ⟨"", none⟩ "").1 rfl,
   (c10_getCurrentUser_null_paths ⟨[("token", "tk"), ("user", "u0")], ""⟩
      failingBackend ⟨"Network Error", none⟩ "tk").2 rfl (by decide) (fun _ => rfl)⟩

end StyleVerse
